import Mathlib

/-!
Shallow embedding of the per-sender TAP accounting agent
(`src/tap-agent/src/agent/sender_account.rs`) and of the attestation-signer
maintenance step (`src/common/src/attestations/signers.rs`).

Addresses are modelled as natural numbers, `u128` fee amounts and the `U256`
escrow balance as `Nat` (no arithmetic in the handlers can overflow 2^128 on
the inputs the agent accepts, and the source would panic rather than wrap).
The `SenderFeeTracker` structure itself lives in
`src/tap-agent/src/agent/sender_fee_tracker.rs`, which is not part of the
sources; its operations are modelled from spec section 4.1 and marked
`Modelled from the spec:` below.  Everything in `SenderAccount::handle`,
`SenderAccount::handle_supervisor_evt` and `modify_sigers` is translated
from the source.
-/

namespace IndexerRs

/-- Modelled from the spec: per-allocation state of a `SenderFeeTracker`
(spec section 4.1; the source file `sender_fee_tracker.rs` is absent).
`fee`/`counter` are the running totals, `feeBuffered`/`counterBuffered` the
portion contributed by receipts whose timestamp is still inside the
`rav_request_timestamp_buffer_ms` window, `blocked`, `ravInFlight` and
`backingOff` the three exclusion flags. -/
structure AllocFees where
  fee : Nat
  counter : Nat
  feeBuffered : Nat
  counterBuffered : Nat
  blocked : Bool
  ravInFlight : Bool
  backingOff : Bool
  deriving DecidableEq, Repr

/-- The state of an allocation the tracker has never seen. -/
def AllocFees.empty : AllocFees :=
  ⟨0, 0, 0, 0, false, false, false⟩

/-- Fee total excluding the receipts inside the timestamp buffer. -/
def AllocFees.feeOutside (f : AllocFees) : Nat :=
  f.fee - f.feeBuffered

/-- Receipt count excluding the receipts inside the timestamp buffer. -/
def AllocFees.counterOutside (f : AllocFees) : Nat :=
  f.counter - f.counterBuffered

/-- Modelled from the spec: a `SenderFeeTracker` is a finite map from
allocation address to `AllocFees`, embedded as an association list. -/
abbrev Tracker := List (Nat × AllocFees)

namespace Tracker

/-- Per-allocation read with the never-seen default. -/
def get (t : Tracker) (a : Nat) : AllocFees :=
  (t.lookup a).getD AllocFees.empty

/-- Write through the association list, replacing the first binding of `a`
or appending a fresh one. -/
def set : Tracker → Nat → AllocFees → Tracker
  | [], a, f => [(a, f)]
  | (b, g) :: t, a, f => if b = a then (a, f) :: t else (b, g) :: set t a f

/-- Point update of one allocation's state. -/
def modify (t : Tracker) (a : Nat) (g : AllocFees → AllocFees) : Tracker :=
  t.set a (g (t.get a))

/-- Modelled from the spec: `add(alloc, value)` appends a receipt stamped
`now`, which therefore starts inside the timestamp buffer. -/
def add (t : Tracker) (a : Nat) (v : Nat) : Tracker :=
  t.modify a fun f =>
    { f with fee := f.fee + v, counter := f.counter + 1,
             feeBuffered := f.feeBuffered + v,
             counterBuffered := f.counterBuffered + 1 }

/-- Modelled from the spec: `update(alloc, value, counter)` overwrites the
totals with reconciled post-RAV numbers; the buffered portion is cleared,
the exclusion flags are untouched. -/
def update (t : Tracker) (a : Nat) (v : Nat) (c : Nat) : Tracker :=
  t.modify a fun f =>
    { f with fee := v, counter := c, feeBuffered := 0, counterBuffered := 0 }

/-- Modelled from the spec: unconditional fee total across allocations. -/
def get_total_fee (t : Tracker) : Nat :=
  (t.map fun p => p.2.fee).sum

/-- Modelled from the spec: fee total excluding receipts inside the buffer
and excluding allocations with a RAV request in flight. -/
def get_total_fee_outside_buffer (t : Tracker) : Nat :=
  (t.map fun p => if p.2.ravInFlight then 0 else p.2.feeOutside).sum

/-- Modelled from the spec: per-allocation receipt count excluding the
receipts inside the buffer. -/
def get_total_counter_outside_buffer_for_allocation (t : Tracker) (a : Nat) : Nat :=
  (t.get a).counterOutside

/-- Modelled from the spec: whether allocation `a` has a RAV request in
flight. -/
def check_allocation_has_rav_request_running (t : Tracker) (a : Nat) : Bool :=
  (t.get a).ravInFlight

/-- Modelled from the spec: an allocation is eligible for heaviest-selection
when it is not blocked, has no RAV request in flight and is not backing
off. -/
def eligible (f : AllocFees) : Bool :=
  !f.blocked && !f.ravInFlight && !f.backingOff

/-- Modelled from the spec: the eligible allocation maximizing the fee value
outside the buffer, ties broken towards the smaller address; `none` when
every allocation is excluded. -/
def get_heaviest_allocation_id (t : Tracker) : Option Nat :=
  (t.foldl
    (fun best p =>
      if eligible p.2 then
        match best with
        | none => some (p.1, p.2.feeOutside)
        | some (b, v) =>
            if p.2.feeOutside > v ∨ (p.2.feeOutside = v ∧ p.1 < b) then
              some (p.1, p.2.feeOutside)
            else some (b, v)
      else best)
    none).map Prod.fst

/-- Modelled from the spec: `start_rav_request` raises the in-flight flag. -/
def start_rav_request (t : Tracker) (a : Nat) : Tracker :=
  t.modify a fun f => { f with ravInFlight := true }

/-- Modelled from the spec: `finish_rav_request` clears the in-flight flag. -/
def finish_rav_request (t : Tracker) (a : Nat) : Tracker :=
  t.modify a fun f => { f with ravInFlight := false }

/-- Modelled from the spec: `ok_rav_request` clears the failure backoff. -/
def ok_rav_request (t : Tracker) (a : Nat) : Tracker :=
  t.modify a fun f => { f with backingOff := false }

/-- Modelled from the spec: `failed_rav_backoff` records a backoff deadline
for the allocation. -/
def failed_rav_backoff (t : Tracker) (a : Nat) : Tracker :=
  t.modify a fun f => { f with backingOff := true }

/-- Modelled from the spec: mark the allocation as finalizing. -/
def block_allocation_id (t : Tracker) (a : Nat) : Tracker :=
  t.modify a fun f => { f with blocked := true }

/-- Modelled from the spec: clear the finalizing mark. -/
def unblock_allocation_id (t : Tracker) (a : Nat) : Tracker :=
  t.modify a fun f => { f with blocked := false }

/-- Modelled from the spec: the set of allocation ids the tracker holds an
entry for. -/
def get_list_of_allocation_ids (t : Tracker) : Finset Nat :=
  (t.map Prod.fst).toFinset

theorem get_set (t : Tracker) (a : Nat) (f : AllocFees) (b : Nat) :
    (t.set a f).get b = if b = a then f else t.get b := by
  induction t with
  | nil =>
      by_cases h : b = a
      · simp [set, get, List.lookup, h]
      · have h2 : (b == a) = false := by simp [h]
        simp [set, get, List.lookup, h, h2]
  | cons p t ih =>
      obtain ⟨c, g⟩ := p
      simp only [set]
      by_cases hca : c = a
      · subst hca
        by_cases hb : b = c
        · simp [get, List.lookup, hb]
        · have h2 : (b == c) = false := by simp [hb]
          simp [get, List.lookup, hb, h2]
      · simp only [if_neg hca]
        by_cases hbc : b = c
        · have hba : ¬b = a := by rw [hbc]; exact hca
          have h2 : (b == c) = true := by simp [hbc]
          simp [get, List.lookup, h2, hba]
        · have h2 : (b == c) = false := by simp [hbc]
          simp only [get, List.lookup, h2]
          simpa only [get] using ih

theorem get_modify (t : Tracker) (a : Nat) (g : AllocFees → AllocFees) (b : Nat) :
    (t.modify a g).get b = if b = a then g (t.get a) else t.get b := by
  simp [modify, get_set]

/-- Replacing the binding of `a` shifts the unconditional total by the
difference of the old and new fee. -/
theorem total_fee_set (t : Tracker) (a : Nat) (f : AllocFees) :
    (t.set a f).get_total_fee + (t.get a).fee = t.get_total_fee + f.fee := by
  induction t with
  | nil => simp [set, get, get_total_fee, List.lookup, AllocFees.empty]
  | cons p t ih =>
      obtain ⟨c, g⟩ := p
      by_cases hca : c = a
      · subst hca
        simp [set, get, get_total_fee, List.lookup]
        omega
      · have h1 : (a == c) = false := by simp [Ne.symm hca]
        simp only [set, if_neg hca]
        simp only [get_total_fee, List.map_cons, List.sum_cons, get, List.lookup, h1,
          Option.getD] at ih ⊢
        omega

theorem total_fee_modify (t : Tracker) (a : Nat) (g : AllocFees → AllocFees) :
    (t.modify a g).get_total_fee + (t.get a).fee
      = t.get_total_fee + (g (t.get a)).fee := by
  simp [modify, total_fee_set]

/-- A point update that keeps the fee unchanged keeps the total unchanged. -/
theorem total_fee_modify_of_fee_eq (t : Tracker) (a : Nat)
    (g : AllocFees → AllocFees) (h : ∀ f, (g f).fee = f.fee) :
    (t.modify a g).get_total_fee = t.get_total_fee := by
  have h2 := total_fee_modify t a g
  rw [h] at h2
  omega

end Tracker

/-- `UnaggregatedReceipts` (crate `unaggregated_receipts.rs`): the handler
reads `value` and `counter`; `last_id` is carried along untouched. -/
structure UnaggregatedReceipts where
  value : Nat
  last_id : Nat
  counter : Nat
  deriving DecidableEq, Repr

/-- `UnaggregatedReceipts::default()`. -/
def UnaggregatedReceipts.zero : UnaggregatedReceipts :=
  ⟨0, 0, 0⟩

/-- The part of a `SignedRAV` the handler reads: `rav.message.allocationId`
and `rav.message.valueAggregate`. -/
structure SignedRAV where
  allocationId : Nat
  valueAggregate : Nat
  deriving DecidableEq, Repr

instance {ε α : Type} [DecidableEq ε] [DecidableEq α] : DecidableEq (Except ε α) := fun x y =>
  match x, y with
  | .ok a, .ok b =>
      if h : a = b then isTrue (congrArg Except.ok h)
      else isFalse fun hh => h (Except.ok.inj hh)
  | .error a, .error b =>
      if h : a = b then isTrue (congrArg Except.error h)
      else isFalse fun hh => h (Except.error.inj hh)
  | .ok _, .error _ => isFalse fun hh => Except.noConfusion hh
  | .error _, .ok _ => isFalse fun hh => Except.noConfusion hh

/-- `ReceiptFees` from `sender_account.rs`; the `anyhow::Result` payload of
`RavRequestResponse` becomes an `Except` with a string error message. -/
inductive ReceiptFees where
  | NewReceipt (value : Nat)
  | UpdateValue (u : UnaggregatedReceipts)
  | RavRequestResponse (r : Except String (UnaggregatedReceipts × Option SignedRAV))
  | Retry
  deriving DecidableEq

/-- `SenderAccountMessage` from `sender_account.rs` (the `#[cfg(test)]`
reply-port variants are test-only and omitted). -/
inductive SenderAccountMessage where
  | UpdateBalanceAndLastRavs (balance : Nat) (lastRavs : List (Nat × Nat))
  | UpdateAllocationIds (ids : Finset Nat)
  | NewAllocationId (id : Nat)
  | UpdateReceiptFees (allocationId : Nat) (fees : ReceiptFees)
  | UpdateInvalidReceiptFees (allocationId : Nat) (u : UnaggregatedReceipts)
  | UpdateRav (rav : SignedRAV)
  deriving DecidableEq

/-- The configuration fields `SenderAccount::handle` reads (`config.tap`). -/
structure Config where
  rav_request_trigger_value : Nat
  rav_request_receipt_limit : Nat
  max_unnaggregated_fees_per_sender : Nat
  deriving DecidableEq, Repr

/-- Observable side effects of a handler invocation: casts to allocation
actors, casts to the supervisor itself, child spawns and stops. -/
inductive Effect where
  | triggerRavRequest (allocationId : Nat)
  | castSelf (m : SenderAccountMessage)
  | spawnAllocation (id : Nat)
  | stopAllocation (id : Nat)
  deriving DecidableEq

/-- The supervisor state (`State` in `sender_account.rs`).  `children` is the
set of live `SenderAllocation` actors reachable through the ractor registry,
keyed by allocation id; `dbDenied` mirrors the `scalar_tap_denylist` row;
`liveTimers`/`nextTimer` account for the `JoinHandle`s created by
`send_after` (each live timer is a handle id with the message it will cast)
so that the retry-timer cardinality is observable. -/
structure State where
  sender_fee_tracker : Tracker
  rav_tracker : Tracker
  invalid_receipts_tracker : Tracker
  allocation_ids : Finset Nat
  children : Finset Nat
  scheduled_rav_request : Option Nat
  liveTimers : List (Nat × SenderAccountMessage)
  nextTimer : Nat
  denied : Bool
  dbDenied : Bool
  sender_balance : Nat
  deriving DecidableEq

/-- `State::deny_condition_reached`. -/
def deny_condition_reached (cfg : Config) (s : State) : Bool :=
  let pending_ravs := s.rav_tracker.get_total_fee
  let unaggregated_fees := s.sender_fee_tracker.get_total_fee
  let pending_fees_over_balance :=
    decide (pending_ravs + unaggregated_fees ≥ s.sender_balance)
  let max_unaggregated_fees := cfg.max_unnaggregated_fees_per_sender
  let invalid_receipt_fees := s.invalid_receipts_tracker.get_total_fee
  let total_fee_over_max_value :=
    decide (unaggregated_fees + invalid_receipt_fees ≥ max_unaggregated_fees)
  total_fee_over_max_value || pending_fees_over_balance

/-- `State::add_to_denylist`: writes the denylist row and raises the flag. -/
def add_to_denylist (s : State) : State :=
  { s with denied := true, dbDenied := true }

/-- `State::remove_from_denylist`: deletes the row and clears the flag. -/
def remove_from_denylist (s : State) : State :=
  { s with denied := false, dbDenied := false }

/-- `SenderAccount::deny_sender`: the bare `INSERT ... ON CONFLICT DO
NOTHING` into the denylist table, without touching the in-memory flag. -/
def deny_sender (s : State) : State :=
  { s with dbDenied := true }

/-- `State::create_sender_allocation`: spawn a linked, registry-named child;
ractor refuses a second actor under an already-registered name, and the
handler only logs that error. -/
def createSenderAllocation (s : State) (a : Nat) : State × List Effect :=
  if a ∈ s.children then (s, [])
  else ({ s with children := insert a s.children }, [.spawnAllocation a])

/-- `State::rav_request_for_allocation`: look the actor up in the registry,
cast `TriggerRAVRequest`, then mark the RAV request as started; a missing
actor is an error the caller logs. -/
def ravRequestForAllocation (s : State) (a : Nat) : State × List Effect :=
  if a ∈ s.children then
    ({ s with sender_fee_tracker := s.sender_fee_tracker.start_rav_request a },
     [.triggerRavRequest a])
  else (s, [])

/-- `State::rav_request_for_heaviest_allocation`: resolve the heaviest
allocation and fall through to `rav_request_for_allocation`; resolution
failure is an error the caller logs. -/
def ravRequestForHeaviest (s : State) : State × List Effect :=
  match s.sender_fee_tracker.get_heaviest_allocation_id with
  | some a => ravRequestForAllocation s a
  | none => (s, [])

/-- Top of the `UpdateReceiptFees` arm: `scheduled_rav_request.take()`
followed by `abort()` on the taken handle. -/
def abortScheduled (s : State) : State :=
  match s.scheduled_rav_request with
  | some h =>
      { s with scheduled_rav_request := none,
               liveTimers := s.liveTimers.filter fun p => p.1 != h }
  | none => s

/-- The `match receipt_fees` dispatch of the `UpdateReceiptFees` arm. -/
def applyReceiptFees (s : State) (allocationId : Nat) : ReceiptFees → State
  | .NewReceipt value =>
      let s := if s.denied then deny_sender s else s
      { s with sender_fee_tracker := s.sender_fee_tracker.add allocationId value }
  | .RavRequestResponse ravResult =>
      let s :=
        { s with sender_fee_tracker := s.sender_fee_tracker.finish_rav_request allocationId }
      match ravResult with
      | .ok (fees, rav) =>
          let s := { s with rav_tracker := s.rav_tracker.ok_rav_request allocationId }
          let ravValue := (rav.map SignedRAV.valueAggregate).getD 0
          let s := { s with rav_tracker := s.rav_tracker.update allocationId ravValue 0 }
          { s with sender_fee_tracker :=
              s.sender_fee_tracker.update allocationId fees.value fees.counter }
      | .error _ =>
          { s with rav_tracker := s.rav_tracker.failed_rav_backoff allocationId }
  | .UpdateValue u =>
      { s with sender_fee_tracker :=
          s.sender_fee_tracker.update allocationId u.value u.counter }
  | .Retry => s

/-- The eager-deny step shared by several handler arms: `let should_deny =
!state.denied && state.deny_condition_reached(); if should_deny {
state.add_to_denylist() }`. -/
def eagerDeny (cfg : Config) (s : State) : State :=
  if !s.denied && deny_condition_reached cfg s then add_to_denylist s else s

/-- The trigger decision of the `UpdateReceiptFees` arm: the receipt-limit
trigger for this allocation wins over the value trigger for the heaviest
allocation; an `Err` from either request path is only logged. -/
def triggerStep (cfg : Config) (s : State) (allocationId : Nat) : State × List Effect :=
  let total_counter_for_allocation :=
    s.sender_fee_tracker.get_total_counter_outside_buffer_for_allocation allocationId
  let counter_greater_receipt_limit :=
    decide (total_counter_for_allocation ≥ cfg.rav_request_receipt_limit) &&
      !(s.sender_fee_tracker.check_allocation_has_rav_request_running allocationId)
  let total_fee_outside_buffer := s.sender_fee_tracker.get_total_fee_outside_buffer
  let total_fee_greater_trigger_value :=
    decide (total_fee_outside_buffer ≥ cfg.rav_request_trigger_value)
  match counter_greater_receipt_limit, total_fee_greater_trigger_value with
  | true, _ => ravRequestForAllocation s allocationId
  | _, true => ravRequestForHeaviest s
  | _, _ => (s, [])

/-- The final `match (state.denied, state.deny_condition_reached())` of the
`UpdateReceiptFees` arm: allow on `(true, false)`, re-arm the retry timer
with an `UpdateReceiptFees(alloc, Retry)` payload on `(true, true)`. -/
def allowOrRearm (cfg : Config) (s : State) (allocationId : Nat) : State :=
  match s.denied, deny_condition_reached cfg s with
  | true, false => remove_from_denylist s
  | true, true =>
      { s with scheduled_rav_request := some s.nextTimer,
               liveTimers :=
                 (s.nextTimer, SenderAccountMessage.UpdateReceiptFees allocationId .Retry)
                   :: s.liveTimers,
               nextTimer := s.nextTimer + 1 }
  | _, _ => s

/-- The final `match (state.denied, state.deny_condition_reached())` of the
`UpdateBalanceAndLastRavs` arm: allow on `(true, false)`, deny on
`(false, true)`. -/
def reconcileDeny (cfg : Config) (s : State) : State :=
  match s.denied, deny_condition_reached cfg s with
  | true, false => remove_from_denylist s
  | false, true => add_to_denylist s
  | _, _ => s

/-- The `UpdateReceiptFees` arm of `SenderAccount::handle`. -/
def handleUpdateReceiptFees (cfg : Config) (s : State) (allocationId : Nat)
    (fees : ReceiptFees) : State × List Effect :=
  let s1 := abortScheduled s
  let s2 := applyReceiptFees s1 allocationId fees
  let s3 := eagerDeny cfg s2
  let r := triggerStep cfg s3 allocationId
  (allowOrRearm cfg r.1 allocationId, r.2)

/-- `SenderAccount::handle`, message by message as in the source. -/
def handle (cfg : Config) (s : State) : SenderAccountMessage → State × List Effect
  | .UpdateRav rav =>
      let s :=
        { s with rav_tracker := s.rav_tracker.update rav.allocationId rav.valueAggregate 0 }
      (eagerDeny cfg s, [])
  | .UpdateInvalidReceiptFees allocationId u =>
      let s :=
        { s with invalid_receipts_tracker :=
            s.invalid_receipts_tracker.update allocationId u.value 0 }
      (eagerDeny cfg s, [])
  | .UpdateReceiptFees allocationId fees => handleUpdateReceiptFees cfg s allocationId fees
  | .UpdateAllocationIds ids =>
      let toSpawn := (ids \ s.allocation_ids).sort (· ≤ ·)
      let r1 := toSpawn.foldl
        (fun acc a =>
          let r := createSenderAllocation acc.1 a
          (r.1, acc.2 ++ r.2))
        (s, ([] : List Effect))
      let toRemove := (r1.1.allocation_ids \ ids).sort (· ≤ ·)
      let r2 := toRemove.foldl
        (fun acc a =>
          if a ∈ acc.1.children then
            ({ acc.1 with sender_fee_tracker :=
                 acc.1.sender_fee_tracker.block_allocation_id a },
             acc.2 ++ [Effect.stopAllocation a])
          else acc)
        (r1.1, ([] : List Effect))
      ({ r2.1 with allocation_ids := ids }, r1.2 ++ r2.2)
  | .NewAllocationId allocationId =>
      let r := createSenderAllocation s allocationId
      ({ r.1 with allocation_ids := insert allocationId r.1.allocation_ids }, r.2)
  | .UpdateBalanceAndLastRavs new_balance non_final_last_ravs =>
      let s := { s with sender_balance := new_balance }
      let non_final_last_ravs_set : Finset Nat := (non_final_last_ravs.map Prod.fst).toFinset
      let active_allocation_ids := s.allocation_ids ∪ non_final_last_ravs_set
      let tracked_allocation_ids := s.rav_tracker.get_list_of_allocation_ids
      let stale := (tracked_allocation_ids \ active_allocation_ids).sort (· ≤ ·)
      let s := { s with rav_tracker := stale.foldl (fun t a => t.update a 0 0) s.rav_tracker }
      let s :=
        { s with rav_tracker :=
            non_final_last_ravs.foldl (fun t p => t.update p.1 p.2 0) s.rav_tracker }
      (reconcileDeny cfg s, [])

/-- A ractor supervision event as seen by `handle_supervisor_evt`; only the
registry name of the child cell is read.  The name string is embedded as the
list of its colon-separated segments (what `split(':')` yields), since the
handler only ever consumes that split. -/
inductive SupervisionEvent where
  | ActorTerminated (name : Option (List String))
  | ActorPanicked (name : Option (List String))
  deriving DecidableEq

/-- The allocation-id extraction of `handle_supervisor_evt`:
`cell.get_name()`, `split(':').last()`, `Address::parse_checksummed`; the
address parser is a parameter of the embedding. -/
def extractAllocationId (parseAddr : String → Option Nat) :
    Option (List String) → Option Nat
  | none => none
  | some parts =>
      match parts.getLast? with
      | none => none
      | some lastPart => parseAddr lastPart

/-- `SenderAccount::handle_supervisor_evt`: on an orderly termination,
unblock the allocation and cast `UpdateReceiptFees(alloc,
UpdateValue(default))` to the supervisor itself; on a panic, respawn the
child; malformed names are logged and ignored.  The terminated or panicked
child has already left the ractor registry. -/
def handleSupervisorEvt (parseAddr : String → Option Nat) (s : State) :
    SupervisionEvent → State × List Effect
  | .ActorTerminated name =>
      match extractAllocationId parseAddr name with
      | none => (s, [])
      | some allocationId =>
          ({ s with
              sender_fee_tracker := s.sender_fee_tracker.unblock_allocation_id allocationId,
              children := s.children.erase allocationId },
           [.castSelf (.UpdateReceiptFees allocationId (.UpdateValue UnaggregatedReceipts.zero))])
  | .ActorPanicked name =>
      match extractAllocationId parseAddr name with
      | none => (s, [])
      | some allocationId =>
          createSenderAllocation { s with children := s.children.erase allocationId }
            allocationId

/-- The state `pre_start` builds: empty trackers, the deny flag read from
the `scalar_tap_denylist` table, the balance read from the escrow accounts,
one child spawned per initial allocation id, no scheduled retry. -/
def initState (allocationIds : Finset Nat) (deniedInDb : Bool) (balance : Nat) : State :=
  { sender_fee_tracker := [], rav_tracker := [], invalid_receipts_tracker := [],
    allocation_ids := allocationIds, children := allocationIds,
    scheduled_rav_request := none, liveTimers := [], nextTimer := 0,
    denied := deniedInDb, dbDenied := deniedInDb, sender_balance := balance }

/-- Environment step: the retry timer with handle `h` elapses and casts its
message (the cast itself is a later `handle` step); the `JoinHandle` is
finished afterwards. -/
def fireTimer (s : State) (h : Nat) : State :=
  { s with liveTimers := s.liveTimers.filter fun p => p.1 != h }

/-- States of the supervisor reachable from some startup state through
handler invocations, supervision events and timer expirations. -/
inductive Reachable (cfg : Config) (parseAddr : String → Option Nat) : State → Prop where
  | init (ids : Finset Nat) (d : Bool) (b : Nat) :
      Reachable cfg parseAddr (initState ids d b)
  | msg (s : State) (m : SenderAccountMessage) :
      Reachable cfg parseAddr s → Reachable cfg parseAddr (handle cfg s m).1
  | supervision (s : State) (ev : SupervisionEvent) :
      Reachable cfg parseAddr s → Reachable cfg parseAddr (handleSupervisorEvt parseAddr s ev).1
  | fire (s : State) (h : Nat) :
      Reachable cfg parseAddr s → Reachable cfg parseAddr (fireTimer s h)

/-- `modify_sigers` from `src/common/src/attestations/signers.rs`.  The
signer map and the allocation map are association lists keyed by address;
`mkSigner` stands for `AttestationSigner::new` over the fixed mnemonic and
chain id, taking the allocation payload and the dispute-manager address and
failing with a logged warning when it returns `none`.  When the
dispute-manager channel holds `None` the function returns the stored map
unchanged; otherwise it retains only signers whose allocation is still
present and then inserts a signer for every allocation that lacks one. -/
def modify_sigers {A S : Type} (mkSigner : Nat → A → Nat → Option S)
    (signers : List (Nat × S)) (allocations : List (Nat × A))
    (dispute_manager : Option Nat) : List (Nat × S) :=
  match dispute_manager with
  | none => signers
  | some dm =>
      let retained := signers.filter fun p => allocations.any fun q => q.1 == p.1
      allocations.foldl
        (fun acc q =>
          if (acc.lookup q.1).isSome then acc
          else
            match mkSigner q.1 q.2 dm with
            | some sg => acc ++ [(q.1, sg)]
            | none => acc)
        retained

namespace Tracker

theorem total_fee_add (t : Tracker) (a v : Nat) :
    (t.add a v).get_total_fee = t.get_total_fee + v := by
  have h := total_fee_modify t a fun f =>
    { f with fee := f.fee + v, counter := f.counter + 1,
             feeBuffered := f.feeBuffered + v,
             counterBuffered := f.counterBuffered + 1 }
  simp only at h
  unfold add
  omega

theorem total_fee_update (t : Tracker) (a v c : Nat) :
    (t.update a v c).get_total_fee + (t.get a).fee = t.get_total_fee + v := by
  have h := total_fee_modify t a fun f =>
    { f with fee := v, counter := c, feeBuffered := 0, counterBuffered := 0 }
  simp only at h
  unfold update
  omega

theorem fee_modify_of_fee_eq (t : Tracker) (a : Nat) (g : AllocFees → AllocFees)
    (h : ∀ f, (g f).fee = f.fee) (b : Nat) :
    ((t.modify a g).get b).fee = (t.get b).fee := by
  rw [get_modify]
  split
  · next heq => rw [heq, h]
  · rfl

theorem counter_modify_of_counter_eq (t : Tracker) (a : Nat) (g : AllocFees → AllocFees)
    (h : ∀ f, (g f).counter = f.counter) (b : Nat) :
    ((t.modify a g).get b).counter = (t.get b).counter := by
  rw [get_modify]
  split
  · next heq => rw [heq, h]
  · rfl

@[simp] theorem total_fee_start_rav_request (t : Tracker) (a : Nat) :
    (t.start_rav_request a).get_total_fee = t.get_total_fee :=
  total_fee_modify_of_fee_eq t a _ fun _ => rfl

@[simp] theorem total_fee_finish_rav_request (t : Tracker) (a : Nat) :
    (t.finish_rav_request a).get_total_fee = t.get_total_fee :=
  total_fee_modify_of_fee_eq t a _ fun _ => rfl

@[simp] theorem total_fee_ok_rav_request (t : Tracker) (a : Nat) :
    (t.ok_rav_request a).get_total_fee = t.get_total_fee :=
  total_fee_modify_of_fee_eq t a _ fun _ => rfl

@[simp] theorem total_fee_failed_rav_backoff (t : Tracker) (a : Nat) :
    (t.failed_rav_backoff a).get_total_fee = t.get_total_fee :=
  total_fee_modify_of_fee_eq t a _ fun _ => rfl

@[simp] theorem total_fee_block (t : Tracker) (a : Nat) :
    (t.block_allocation_id a).get_total_fee = t.get_total_fee :=
  total_fee_modify_of_fee_eq t a _ fun _ => rfl

@[simp] theorem total_fee_unblock (t : Tracker) (a : Nat) :
    (t.unblock_allocation_id a).get_total_fee = t.get_total_fee :=
  total_fee_modify_of_fee_eq t a _ fun _ => rfl

end Tracker

theorem deny_condition_congr {cfg : Config} {s s' : State}
    (h1 : s'.sender_fee_tracker.get_total_fee = s.sender_fee_tracker.get_total_fee)
    (h2 : s'.rav_tracker.get_total_fee = s.rav_tracker.get_total_fee)
    (h3 : s'.invalid_receipts_tracker.get_total_fee
        = s.invalid_receipts_tracker.get_total_fee)
    (h4 : s'.sender_balance = s.sender_balance) :
    deny_condition_reached cfg s' = deny_condition_reached cfg s := by
  unfold deny_condition_reached
  rw [h1, h2, h3, h4]

theorem deny_condition_true_iff (cfg : Config) (s : State) :
    deny_condition_reached cfg s = true ↔
      (s.sender_fee_tracker.get_total_fee + s.invalid_receipts_tracker.get_total_fee
          ≥ cfg.max_unnaggregated_fees_per_sender
        ∨ s.sender_fee_tracker.get_total_fee + s.rav_tracker.get_total_fee
          ≥ s.sender_balance) := by
  unfold deny_condition_reached
  simp only [Bool.or_eq_true, decide_eq_true_eq]
  omega

@[simp] theorem deny_condition_remove_from_denylist (cfg : Config) (s : State) :
    deny_condition_reached cfg (remove_from_denylist s) = deny_condition_reached cfg s := rfl

@[simp] theorem deny_condition_add_to_denylist (cfg : Config) (s : State) :
    deny_condition_reached cfg (add_to_denylist s) = deny_condition_reached cfg s := rfl

@[simp] theorem deny_condition_deny_sender (cfg : Config) (s : State) :
    deny_condition_reached cfg (deny_sender s) = deny_condition_reached cfg s := rfl

@[simp] theorem abortScheduled_sender_fee_tracker (s : State) :
    (abortScheduled s).sender_fee_tracker = s.sender_fee_tracker := by
  unfold abortScheduled
  cases h : s.scheduled_rav_request <;> rfl

@[simp] theorem abortScheduled_rav_tracker (s : State) :
    (abortScheduled s).rav_tracker = s.rav_tracker := by
  unfold abortScheduled
  cases h : s.scheduled_rav_request <;> rfl

@[simp] theorem abortScheduled_invalid_receipts_tracker (s : State) :
    (abortScheduled s).invalid_receipts_tracker = s.invalid_receipts_tracker := by
  unfold abortScheduled
  cases h : s.scheduled_rav_request <;> rfl

@[simp] theorem abortScheduled_denied (s : State) :
    (abortScheduled s).denied = s.denied := by
  unfold abortScheduled
  cases h : s.scheduled_rav_request <;> rfl

@[simp] theorem abortScheduled_dbDenied (s : State) :
    (abortScheduled s).dbDenied = s.dbDenied := by
  unfold abortScheduled
  cases h : s.scheduled_rav_request <;> rfl

@[simp] theorem abortScheduled_sender_balance (s : State) :
    (abortScheduled s).sender_balance = s.sender_balance := by
  unfold abortScheduled
  cases h : s.scheduled_rav_request <;> rfl

@[simp] theorem abortScheduled_allocation_ids (s : State) :
    (abortScheduled s).allocation_ids = s.allocation_ids := by
  unfold abortScheduled
  cases h : s.scheduled_rav_request <;> rfl

@[simp] theorem abortScheduled_children (s : State) :
    (abortScheduled s).children = s.children := by
  unfold abortScheduled
  cases h : s.scheduled_rav_request <;> rfl

@[simp] theorem abortScheduled_nextTimer (s : State) :
    (abortScheduled s).nextTimer = s.nextTimer := by
  unfold abortScheduled
  cases h : s.scheduled_rav_request <;> rfl

@[simp] theorem abortScheduled_scheduled (s : State) :
    (abortScheduled s).scheduled_rav_request = none := by
  unfold abortScheduled
  cases h : s.scheduled_rav_request <;> simp [h]

theorem deny_condition_abortScheduled (cfg : Config) (s : State) :
    deny_condition_reached cfg (abortScheduled s) = deny_condition_reached cfg s :=
  deny_condition_congr (by simp) (by simp) (by simp) (by simp)

@[simp] theorem eagerDeny_sender_fee_tracker (cfg : Config) (s : State) :
    (eagerDeny cfg s).sender_fee_tracker = s.sender_fee_tracker := by
  unfold eagerDeny add_to_denylist
  split <;> rfl

@[simp] theorem eagerDeny_rav_tracker (cfg : Config) (s : State) :
    (eagerDeny cfg s).rav_tracker = s.rav_tracker := by
  unfold eagerDeny add_to_denylist
  split <;> rfl

@[simp] theorem eagerDeny_invalid_receipts_tracker (cfg : Config) (s : State) :
    (eagerDeny cfg s).invalid_receipts_tracker = s.invalid_receipts_tracker := by
  unfold eagerDeny add_to_denylist
  split <;> rfl

@[simp] theorem eagerDeny_sender_balance (cfg : Config) (s : State) :
    (eagerDeny cfg s).sender_balance = s.sender_balance := by
  unfold eagerDeny add_to_denylist
  split <;> rfl

@[simp] theorem eagerDeny_allocation_ids (cfg : Config) (s : State) :
    (eagerDeny cfg s).allocation_ids = s.allocation_ids := by
  unfold eagerDeny add_to_denylist
  split <;> rfl

@[simp] theorem eagerDeny_children (cfg : Config) (s : State) :
    (eagerDeny cfg s).children = s.children := by
  unfold eagerDeny add_to_denylist
  split <;> rfl

@[simp] theorem eagerDeny_scheduled (cfg : Config) (s : State) :
    (eagerDeny cfg s).scheduled_rav_request = s.scheduled_rav_request := by
  unfold eagerDeny add_to_denylist
  split <;> rfl

@[simp] theorem eagerDeny_liveTimers (cfg : Config) (s : State) :
    (eagerDeny cfg s).liveTimers = s.liveTimers := by
  unfold eagerDeny add_to_denylist
  split <;> rfl

@[simp] theorem eagerDeny_nextTimer (cfg : Config) (s : State) :
    (eagerDeny cfg s).nextTimer = s.nextTimer := by
  unfold eagerDeny add_to_denylist
  split <;> rfl

theorem deny_condition_eagerDeny (cfg : Config) (s : State) :
    deny_condition_reached cfg (eagerDeny cfg s) = deny_condition_reached cfg s :=
  deny_condition_congr (by simp) (by simp) (by simp) (by simp)

theorem eagerDeny_denied (cfg : Config) (s : State) :
    (eagerDeny cfg s).denied = (s.denied || deny_condition_reached cfg s) := by
  unfold eagerDeny add_to_denylist
  cases hd : s.denied <;> cases hc : deny_condition_reached cfg s <;> simp [hd, hc]

theorem eagerDeny_of_denied (cfg : Config) (s : State) (h : s.denied = true) :
    eagerDeny cfg s = s := by
  unfold eagerDeny
  simp [h]

theorem applyReceiptFees_frame (s : State) (a : Nat) (rf : ReceiptFees) :
    (applyReceiptFees s a rf).denied = s.denied ∧
    (applyReceiptFees s a rf).scheduled_rav_request = s.scheduled_rav_request ∧
    (applyReceiptFees s a rf).liveTimers = s.liveTimers ∧
    (applyReceiptFees s a rf).nextTimer = s.nextTimer ∧
    (applyReceiptFees s a rf).sender_balance = s.sender_balance ∧
    (applyReceiptFees s a rf).children = s.children ∧
    (applyReceiptFees s a rf).allocation_ids = s.allocation_ids := by
  cases rf with
  | NewReceipt v =>
      cases hd : s.denied <;> simp [applyReceiptFees, deny_sender, hd]
  | UpdateValue u => simp [applyReceiptFees]
  | RavRequestResponse r =>
      rcases r with ⟨fees, rav⟩ | e <;> simp [applyReceiptFees]
  | Retry => simp [applyReceiptFees]

theorem applyReceiptFees_dbDenied_newReceipt (s : State) (a v : Nat)
    (h : s.denied = true) :
    (applyReceiptFees s a (.NewReceipt v)).dbDenied = true := by
  simp [applyReceiptFees, deny_sender, h]

namespace Tracker

@[simp] theorem fee_start_rav_request (t : Tracker) (a b : Nat) :
    ((t.start_rav_request a).get b).fee = (t.get b).fee :=
  fee_modify_of_fee_eq t a (fun f => { f with ravInFlight := true }) (fun _ => rfl) b

@[simp] theorem counter_start_rav_request (t : Tracker) (a b : Nat) :
    ((t.start_rav_request a).get b).counter = (t.get b).counter :=
  counter_modify_of_counter_eq t a (fun f => { f with ravInFlight := true }) (fun _ => rfl) b

@[simp] theorem fee_finish_rav_request (t : Tracker) (a b : Nat) :
    ((t.finish_rav_request a).get b).fee = (t.get b).fee :=
  fee_modify_of_fee_eq t a (fun f => { f with ravInFlight := false }) (fun _ => rfl) b

@[simp] theorem counter_finish_rav_request (t : Tracker) (a b : Nat) :
    ((t.finish_rav_request a).get b).counter = (t.get b).counter :=
  counter_modify_of_counter_eq t a (fun f => { f with ravInFlight := false }) (fun _ => rfl) b

end Tracker

theorem ravRequestForAllocation_state_cases (s : State) (a : Nat) :
    (ravRequestForAllocation s a).1 = s ∨
    (ravRequestForAllocation s a).1 =
      { s with sender_fee_tracker := s.sender_fee_tracker.start_rav_request a } := by
  unfold ravRequestForAllocation
  split
  · right; rfl
  · left; rfl

theorem triggerStep_state_cases (cfg : Config) (s : State) (a : Nat) :
    (triggerStep cfg s a).1 = s ∨
    ∃ b, (triggerStep cfg s a).1 =
      { s with sender_fee_tracker := s.sender_fee_tracker.start_rav_request b } := by
  unfold triggerStep
  cases h1 : (decide (s.sender_fee_tracker.get_total_counter_outside_buffer_for_allocation a
        ≥ cfg.rav_request_receipt_limit)
      && !s.sender_fee_tracker.check_allocation_has_rav_request_running a) <;>
    cases h2 : decide (s.sender_fee_tracker.get_total_fee_outside_buffer
        ≥ cfg.rav_request_trigger_value) <;>
    simp only [h1, h2]
  · exact Or.inl trivial
  · unfold ravRequestForHeaviest
    cases hh : s.sender_fee_tracker.get_heaviest_allocation_id with
    | none => exact Or.inl rfl
    | some b =>
        rcases ravRequestForAllocation_state_cases s b with h | h
        · exact Or.inl h
        · exact Or.inr ⟨b, h⟩
  · rcases ravRequestForAllocation_state_cases s a with h | h
    · exact Or.inl h
    · exact Or.inr ⟨a, h⟩
  · rcases ravRequestForAllocation_state_cases s a with h | h
    · exact Or.inl h
    · exact Or.inr ⟨a, h⟩

theorem triggerStep_characterization (cfg : Config) (s : State) (a : Nat) :
    ∃ t : Tracker, (triggerStep cfg s a).1 = { s with sender_fee_tracker := t } ∧
      t.get_total_fee = s.sender_fee_tracker.get_total_fee ∧
      ∀ b, (t.get b).fee = (s.sender_fee_tracker.get b).fee ∧
           (t.get b).counter = (s.sender_fee_tracker.get b).counter := by
  rcases triggerStep_state_cases cfg s a with h | ⟨b, h⟩
  · exact ⟨s.sender_fee_tracker, by rw [h], rfl, fun c => ⟨rfl, rfl⟩⟩
  · exact ⟨s.sender_fee_tracker.start_rav_request b, h, by simp, by simp⟩

theorem allowOrRearm_frame (cfg : Config) (s : State) (a : Nat) :
    (allowOrRearm cfg s a).sender_fee_tracker = s.sender_fee_tracker ∧
    (allowOrRearm cfg s a).rav_tracker = s.rav_tracker ∧
    (allowOrRearm cfg s a).invalid_receipts_tracker = s.invalid_receipts_tracker ∧
    (allowOrRearm cfg s a).sender_balance = s.sender_balance ∧
    (allowOrRearm cfg s a).children = s.children ∧
    (allowOrRearm cfg s a).allocation_ids = s.allocation_ids := by
  unfold allowOrRearm remove_from_denylist
  cases hd : s.denied <;> cases hc : deny_condition_reached cfg s <;> simp [hd, hc]

theorem allowOrRearm_cases (cfg : Config) (s : State) (a : Nat) :
    (s.denied = true ∧ deny_condition_reached cfg s = false ∧
      allowOrRearm cfg s a = remove_from_denylist s) ∨
    (s.denied = true ∧ deny_condition_reached cfg s = true ∧
      allowOrRearm cfg s a =
        { s with scheduled_rav_request := some s.nextTimer,
                 liveTimers :=
                   (s.nextTimer, SenderAccountMessage.UpdateReceiptFees a .Retry)
                     :: s.liveTimers,
                 nextTimer := s.nextTimer + 1 }) ∨
    (s.denied = false ∧ allowOrRearm cfg s a = s) := by
  unfold allowOrRearm
  cases hd : s.denied <;> cases hc : deny_condition_reached cfg s <;> simp [hd, hc]

theorem allowOrRearm_denied_eq (cfg : Config) (s4 : State) (a : Nat)
    (himp : s4.denied = false → deny_condition_reached cfg s4 = false) :
    (allowOrRearm cfg s4 a).denied
      = deny_condition_reached cfg (allowOrRearm cfg s4 a) := by
  rcases allowOrRearm_cases cfg s4 a with ⟨hd, hc, heq⟩ | ⟨hd, hc, heq⟩ | ⟨hd, heq⟩ <;>
    rw [heq]
  · rw [deny_condition_remove_from_denylist, hc]
    rfl
  · have h5 : deny_condition_reached cfg
        { s4 with scheduled_rav_request := some s4.nextTimer,
                  liveTimers :=
                    (s4.nextTimer, SenderAccountMessage.UpdateReceiptFees a .Retry)
                      :: s4.liveTimers,
                  nextTimer := s4.nextTimer + 1 }
        = deny_condition_reached cfg s4 :=
      deny_condition_congr rfl rfl rfl rfl
    rw [h5, hc]
    exact hd
  · rw [hd, himp hd]

theorem handleURF_denied_eq_condition (cfg : Config) (s : State) (a : Nat)
    (rf : ReceiptFees) :
    (handleUpdateReceiptFees cfg s a rf).1.denied
      = deny_condition_reached cfg (handleUpdateReceiptFees cfg s a rf).1 := by
  show (allowOrRearm cfg
      (triggerStep cfg (eagerDeny cfg (applyReceiptFees (abortScheduled s) a rf)) a).1 a).denied
    = deny_condition_reached cfg (allowOrRearm cfg
      (triggerStep cfg (eagerDeny cfg (applyReceiptFees (abortScheduled s) a rf)) a).1 a)
  apply allowOrRearm_denied_eq
  intro hd
  obtain ⟨t, ht, htot, _⟩ :=
    triggerStep_characterization cfg
      (eagerDeny cfg (applyReceiptFees (abortScheduled s) a rf)) a
  rw [ht] at hd ⊢
  have hcond : deny_condition_reached cfg
      { eagerDeny cfg (applyReceiptFees (abortScheduled s) a rf) with sender_fee_tracker := t }
      = deny_condition_reached cfg (eagerDeny cfg (applyReceiptFees (abortScheduled s) a rf)) :=
    deny_condition_congr htot rfl rfl rfl
  rw [hcond, deny_condition_eagerDeny]
  have hd2 : (eagerDeny cfg (applyReceiptFees (abortScheduled s) a rf)).denied = false := hd
  rw [eagerDeny_denied] at hd2
  simp only [Bool.or_eq_false_iff] at hd2
  exact hd2.2

theorem bool_or_eq_right {d c : Bool} (h : d = true → c = true) : (d || c) = c := by
  cases d
  · rfl
  · rw [h rfl]
    rfl

theorem deny_condition_mono (cfg : Config) (s s' : State)
    (h1 : s.sender_fee_tracker.get_total_fee ≤ s'.sender_fee_tracker.get_total_fee)
    (h2 : s.rav_tracker.get_total_fee ≤ s'.rav_tracker.get_total_fee)
    (h3 : s.invalid_receipts_tracker.get_total_fee
        ≤ s'.invalid_receipts_tracker.get_total_fee)
    (h4 : s'.sender_balance ≤ s.sender_balance)
    (h : deny_condition_reached cfg s = true) :
    deny_condition_reached cfg s' = true := by
  rw [deny_condition_true_iff] at h ⊢
  omega

theorem Tracker.total_fee_update_ge (t : Tracker) (a v c : Nat)
    (h : (t.get a).fee ≤ v) :
    t.get_total_fee ≤ (t.update a v c).get_total_fee := by
  have h2 := Tracker.total_fee_update t a v c
  omega

theorem applyReceiptFees_newReceipt_trackers (s : State) (a v : Nat) :
    (applyReceiptFees s a (.NewReceipt v)).sender_fee_tracker
        = s.sender_fee_tracker.add a v ∧
    (applyReceiptFees s a (.NewReceipt v)).rav_tracker = s.rav_tracker ∧
    (applyReceiptFees s a (.NewReceipt v)).invalid_receipts_tracker
        = s.invalid_receipts_tracker := by
  cases hd : s.denied <;> simp [applyReceiptFees, deny_sender, hd]

theorem reconcileDeny_denied_eq (cfg : Config) (s : State) :
    (reconcileDeny cfg s).denied = deny_condition_reached cfg (reconcileDeny cfg s) := by
  unfold reconcileDeny
  cases hd : s.denied <;> cases hc : deny_condition_reached cfg s <;> simp only [hd, hc]
  · rw [deny_condition_add_to_denylist, hc]
    rfl
  · rw [deny_condition_remove_from_denylist, hc]
    rfl

theorem spawn_fold_core (l : List Nat) (s : State) (es : List Effect) :
    ∃ c : Finset Nat,
      (l.foldl (fun acc a =>
          let r := createSenderAllocation acc.1 a
          (r.1, acc.2 ++ r.2)) (s, es)).1
        = { s with children := c } := by
  induction l generalizing s es with
  | nil => exact ⟨s.children, rfl⟩
  | cons a l ih =>
      simp only [List.foldl_cons]
      by_cases hmem : a ∈ s.children
      · have hc : createSenderAllocation s a = (s, []) := by
          simp [createSenderAllocation, hmem]
        rw [hc]
        exact ih s (es ++ [])
      · have hc : createSenderAllocation s a
            = ({ s with children := insert a s.children }, [.spawnAllocation a]) := by
          simp [createSenderAllocation, hmem]
        rw [hc]
        obtain ⟨c, hcc⟩ :=
          ih { s with children := insert a s.children } (es ++ [.spawnAllocation a])
        exact ⟨c, by rw [hcc]⟩

theorem stop_fold_core (l : List Nat) (s : State) (es : List Effect) :
    ∃ t : Tracker,
      (l.foldl (fun acc a =>
          if a ∈ acc.1.children then
            ({ acc.1 with sender_fee_tracker :=
                 acc.1.sender_fee_tracker.block_allocation_id a },
             acc.2 ++ [Effect.stopAllocation a])
          else acc) (s, es)).1
        = { s with sender_fee_tracker := t } ∧
      t.get_total_fee = s.sender_fee_tracker.get_total_fee := by
  induction l generalizing s es with
  | nil => exact ⟨s.sender_fee_tracker, rfl, rfl⟩
  | cons a l ih =>
      simp only [List.foldl_cons]
      by_cases hmem : a ∈ s.children
      · rw [if_pos hmem]
        obtain ⟨t, ht, htot⟩ :=
          ih { s with sender_fee_tracker := s.sender_fee_tracker.block_allocation_id a }
            (es ++ [Effect.stopAllocation a])
        refine ⟨t, by rw [ht], ?_⟩
        rw [htot]
        simp
      · rw [if_neg hmem]
        exact ih s es

theorem createSenderAllocation_state_cases (s : State) (a : Nat) :
    (createSenderAllocation s a).1 = s ∨
    (createSenderAllocation s a).1 = { s with children := insert a s.children } := by
  unfold createSenderAllocation
  split
  · exact Or.inl rfl
  · exact Or.inr rfl

theorem handleURF_newReceipt_denied (cfg : Config) (s : State) (a v : Nat)
    (hd : s.denied = true) (hc : deny_condition_reached cfg s = true) :
    (handleUpdateReceiptFees cfg s a (.NewReceipt v)).1.denied = true ∧
    (handleUpdateReceiptFees cfg s a (.NewReceipt v)).1.dbDenied = true := by
  have h1d : (abortScheduled s).denied = true := by rw [abortScheduled_denied, hd]
  have h1c : deny_condition_reached cfg (abortScheduled s) = true := by
    rw [deny_condition_abortScheduled, hc]
  have hfr := applyReceiptFees_frame (abortScheduled s) a (.NewReceipt v)
  have h2d : (applyReceiptFees (abortScheduled s) a (.NewReceipt v)).denied = true := by
    rw [hfr.1, h1d]
  have h2db : (applyReceiptFees (abortScheduled s) a (.NewReceipt v)).dbDenied = true :=
    applyReceiptFees_dbDenied_newReceipt (abortScheduled s) a v h1d
  obtain ⟨hsft, hrav, hinval⟩ := applyReceiptFees_newReceipt_trackers (abortScheduled s) a v
  have h2c : deny_condition_reached cfg
      (applyReceiptFees (abortScheduled s) a (.NewReceipt v)) = true := by
    refine deny_condition_mono cfg _ _ ?_ ?_ ?_ ?_ h1c
    · rw [hsft, Tracker.total_fee_add]
      exact Nat.le_add_right _ _
    · simp [hrav]
    · simp [hinval]
    · simp [hfr.2.2.2.2.1]
  have he : eagerDeny cfg (applyReceiptFees (abortScheduled s) a (.NewReceipt v))
      = applyReceiptFees (abortScheduled s) a (.NewReceipt v) :=
    eagerDeny_of_denied cfg _ h2d
  show (allowOrRearm cfg (triggerStep cfg
      (eagerDeny cfg (applyReceiptFees (abortScheduled s) a (.NewReceipt v))) a).1 a).denied
        = true ∧
    (allowOrRearm cfg (triggerStep cfg
      (eagerDeny cfg (applyReceiptFees (abortScheduled s) a (.NewReceipt v))) a).1 a).dbDenied
        = true
  rw [he]
  obtain ⟨t, ht, htot, _⟩ :=
    triggerStep_characterization cfg (applyReceiptFees (abortScheduled s) a (.NewReceipt v)) a
  rw [ht]
  have hcong : deny_condition_reached cfg
      { applyReceiptFees (abortScheduled s) a (.NewReceipt v) with sender_fee_tracker := t }
      = deny_condition_reached cfg (applyReceiptFees (abortScheduled s) a (.NewReceipt v)) :=
    deny_condition_congr htot rfl rfl rfl
  have h4c : deny_condition_reached cfg
      { applyReceiptFees (abortScheduled s) a (.NewReceipt v) with sender_fee_tracker := t }
      = true := by
    rw [hcong]
    exact h2c
  rcases allowOrRearm_cases cfg
      { applyReceiptFees (abortScheduled s) a (.NewReceipt v) with sender_fee_tracker := t } a
    with ⟨_, hc4, _⟩ | ⟨_, _, heq⟩ | ⟨hd4, _⟩
  · rw [h4c] at hc4
    cases hc4
  · rw [heq]
    exact ⟨h2d, h2db⟩
  · rw [show ({ applyReceiptFees (abortScheduled s) a (.NewReceipt v) with
        sender_fee_tracker := t } : State).denied
        = (applyReceiptFees (abortScheduled s) a (.NewReceipt v)).denied from rfl, h2d] at hd4
    cases hd4

/-- Contract constraint on the two overwrite-style inbound messages: the
spec assumes invalid-receipt totals are monotone non-decreasing per
allocation (section 8, I3) and a TAP RAV for an allocation never carries a
smaller `valueAggregate` than the one already tracked. -/
def contractOk (s : State) : SenderAccountMessage → Bool
  | .UpdateInvalidReceiptFees a u =>
      decide ((s.invalid_receipts_tracker.get a).fee ≤ u.value)
  | .UpdateRav rav =>
      decide ((s.rav_tracker.get rav.allocationId).fee ≤ rav.valueAggregate)
  | _ => true

theorem handleUAI_state (cfg : Config) (s : State) (ids : Finset Nat) :
    ∃ (c : Finset Nat) (t : Tracker),
      (handle cfg s (.UpdateAllocationIds ids)).1
        = { s with children := c, sender_fee_tracker := t, allocation_ids := ids } ∧
      t.get_total_fee = s.sender_fee_tracker.get_total_fee := by
  obtain ⟨c, hc1⟩ := spawn_fold_core ((ids \ s.allocation_ids).sort (· ≤ ·)) s []
  obtain ⟨t, hc2, htot⟩ := stop_fold_core
      ((({ s with children := c } : State).allocation_ids \ ids).sort (· ≤ ·))
      { s with children := c } []
  refine ⟨c, t, ?_, htot⟩
  simp only [handle]
  rw [hc1, hc2]

/-- C1 (amended): if `denied` agrees with `deny_condition_reached()` before
the message and the message respects the monotonicity part of the public
contract, then after every state-mutating message `denied` again equals
`deny_condition_reached()` on the post-state; moreover a `NewReceipt`
handled while the sender was already denied leaves `denied` true and
re-asserts the deny list.  (The precondition is necessary: see the
counterexample, `UpdateRav` and `UpdateInvalidReceiptFees` deny eagerly but
never re-allow, so a stale `denied = true` inherited from the deny-list
table at startup survives them even when the condition is false.) -/
theorem denied_tracks_deny_condition (cfg : Config) (s : State)
    (m : SenderAccountMessage)
    (hinv : s.denied = deny_condition_reached cfg s)
    (hok : contractOk s m = true) :
    (handle cfg s m).1.denied = deny_condition_reached cfg (handle cfg s m).1 ∧
    ∀ a v, m = .UpdateReceiptFees a (.NewReceipt v) → s.denied = true →
      (handle cfg s m).1.denied = true ∧ (handle cfg s m).1.dbDenied = true := by
  cases m with
  | UpdateReceiptFees a rf =>
      refine ⟨handleURF_denied_eq_condition cfg s a rf, ?_⟩
      intro a' v heq hd
      injection heq with h1 h2
      subst h1
      subst h2
      exact handleURF_newReceipt_denied cfg s a v hd (hinv.symm.trans hd)
  | UpdateRav rav =>
      refine ⟨?_, fun a v h => SenderAccountMessage.noConfusion h⟩
      have hle : (s.rav_tracker.get rav.allocationId).fee ≤ rav.valueAggregate := by
        simpa [contractOk] using hok
      have hmono : deny_condition_reached cfg s = true →
          deny_condition_reached cfg
            { s with rav_tracker :=
                s.rav_tracker.update rav.allocationId rav.valueAggregate 0 } = true := by
        intro hcs
        refine deny_condition_mono cfg s _ (le_refl _) ?_ (le_refl _) (le_refl _) hcs
        exact Tracker.total_fee_update_ge s.rav_tracker rav.allocationId
          rav.valueAggregate 0 hle
      show (eagerDeny cfg
          { s with rav_tracker :=
              s.rav_tracker.update rav.allocationId rav.valueAggregate 0 }).denied
        = deny_condition_reached cfg (eagerDeny cfg
          { s with rav_tracker :=
              s.rav_tracker.update rav.allocationId rav.valueAggregate 0 })
      rw [deny_condition_eagerDeny, eagerDeny_denied]
      apply bool_or_eq_right
      intro hd1
      exact hmono (hinv.symm.trans hd1)
  | UpdateInvalidReceiptFees a u =>
      refine ⟨?_, fun a' v h => SenderAccountMessage.noConfusion h⟩
      have hle : (s.invalid_receipts_tracker.get a).fee ≤ u.value := by
        simpa [contractOk] using hok
      have hmono : deny_condition_reached cfg s = true →
          deny_condition_reached cfg
            { s with invalid_receipts_tracker :=
                s.invalid_receipts_tracker.update a u.value 0 } = true := by
        intro hcs
        refine deny_condition_mono cfg s _ (le_refl _) (le_refl _) ?_ (le_refl _) hcs
        exact Tracker.total_fee_update_ge s.invalid_receipts_tracker a u.value 0 hle
      show (eagerDeny cfg
          { s with invalid_receipts_tracker :=
              s.invalid_receipts_tracker.update a u.value 0 }).denied
        = deny_condition_reached cfg (eagerDeny cfg
          { s with invalid_receipts_tracker :=
              s.invalid_receipts_tracker.update a u.value 0 })
      rw [deny_condition_eagerDeny, eagerDeny_denied]
      apply bool_or_eq_right
      intro hd1
      exact hmono (hinv.symm.trans hd1)
  | NewAllocationId aid =>
      refine ⟨?_, fun a' v h => SenderAccountMessage.noConfusion h⟩
      show ({ (createSenderAllocation s aid).1 with
          allocation_ids := insert aid (createSenderAllocation s aid).1.allocation_ids }).denied
        = deny_condition_reached cfg { (createSenderAllocation s aid).1 with
          allocation_ids := insert aid (createSenderAllocation s aid).1.allocation_ids }
      rcases createSenderAllocation_state_cases s aid with h | h <;> rw [h]
      · have hcong : deny_condition_reached cfg
            { s with allocation_ids := insert aid s.allocation_ids }
            = deny_condition_reached cfg s := deny_condition_congr rfl rfl rfl rfl
        rw [hcong]
        exact hinv
      · have hcong : deny_condition_reached cfg
            { s with children := insert aid s.children,
                     allocation_ids := insert aid s.allocation_ids }
            = deny_condition_reached cfg s := deny_condition_congr rfl rfl rfl rfl
        rw [hcong]
        exact hinv
  | UpdateAllocationIds ids =>
      refine ⟨?_, fun a' v h => SenderAccountMessage.noConfusion h⟩
      obtain ⟨c, t, hst, htot⟩ := handleUAI_state cfg s ids
      rw [hst]
      have hcong : deny_condition_reached cfg
          { s with children := c, sender_fee_tracker := t, allocation_ids := ids }
          = deny_condition_reached cfg s := deny_condition_congr htot rfl rfl rfl
      rw [hcong]
      exact hinv
  | UpdateBalanceAndLastRavs b ravs =>
      refine ⟨?_, fun a' v h => SenderAccountMessage.noConfusion h⟩
      exact reconcileDeny_denied_eq cfg _

/-- C1 witness: at a consistent startup state, a contract-respecting
`UpdateRav` leaves `denied` equal to `deny_condition_reached()`. -/
theorem denied_tracks_deny_condition_witness :
    (initState ∅ false 5).denied
        = deny_condition_reached ⟨2, 2, 1⟩ (initState ∅ false 5) ∧
    (handle ⟨2, 2, 1⟩ (initState ∅ false 5) (.UpdateRav ⟨1, 0⟩)).1.denied
      = deny_condition_reached ⟨2, 2, 1⟩
          (handle ⟨2, 2, 1⟩ (initState ∅ false 5) (.UpdateRav ⟨1, 0⟩)).1 :=
  ⟨by decide,
   (denied_tracks_deny_condition ⟨2, 2, 1⟩ (initState ∅ false 5) (.UpdateRav ⟨1, 0⟩)
      (by decide) (by decide)).1⟩

/-- C1 counterexample: a sender restored as denied from the deny-list table
(startup state `initState ∅ true 1000`, empty trackers, balance 1000,
`max_unnaggregated_fees_per_sender` 1000) handles the contract-respecting
message `UpdateRav { allocationId 1, valueAggregate 500 }`; afterwards
`denied` is still `true` while `deny_condition_reached()` on the post-state
is `false`, and the message is not a `NewReceipt`, so the claimed equality
with its single exception fails. -/
theorem denied_tracks_deny_condition_counterexample :
    contractOk (initState ∅ true 1000) (.UpdateRav ⟨1, 500⟩) = true ∧
    (handle ⟨1000000, 1000000, 1000⟩ (initState ∅ true 1000)
        (.UpdateRav ⟨1, 500⟩)).1.denied = true ∧
    deny_condition_reached ⟨1000000, 1000000, 1000⟩
      (handle ⟨1000000, 1000000, 1000⟩ (initState ∅ true 1000)
        (.UpdateRav ⟨1, 500⟩)).1 = false := by
  decide

/-- C3: `deny_condition_reached()` is true exactly when
`unaggregated + invalid ≥ max_unaggregated_fees_per_sender` or
`unaggregated + pending_rav ≥ sender_balance`, over the full (non-buffered)
tracker totals; both comparisons trip at exact equality and the condition is
false only when both sums are strictly below their bounds. -/
theorem deny_condition_characterization (cfg : Config) (s : State) :
    (deny_condition_reached cfg s = true ↔
      (s.sender_fee_tracker.get_total_fee + s.invalid_receipts_tracker.get_total_fee
          ≥ cfg.max_unnaggregated_fees_per_sender
        ∨ s.sender_fee_tracker.get_total_fee + s.rav_tracker.get_total_fee
          ≥ s.sender_balance)) ∧
    (s.sender_fee_tracker.get_total_fee + s.invalid_receipts_tracker.get_total_fee
        = cfg.max_unnaggregated_fees_per_sender →
      deny_condition_reached cfg s = true) ∧
    (s.sender_fee_tracker.get_total_fee + s.rav_tracker.get_total_fee
        = s.sender_balance →
      deny_condition_reached cfg s = true) ∧
    (s.sender_fee_tracker.get_total_fee + s.invalid_receipts_tracker.get_total_fee
        < cfg.max_unnaggregated_fees_per_sender →
     s.sender_fee_tracker.get_total_fee + s.rav_tracker.get_total_fee
        < s.sender_balance →
      deny_condition_reached cfg s = false) := by
  have h := deny_condition_true_iff cfg s
  refine ⟨h, ?_, ?_, ?_⟩
  · intro he
    rw [h]
    omega
  · intro he
    rw [h]
    omega
  · intro h1 h2
    cases hc : deny_condition_reached cfg s
    · rfl
    · have h3 := h.mp hc
      omega

/-- C3 witness: with cap 10, unaggregated 7 and invalid 3 the deny condition
trips at exact equality. -/
theorem deny_condition_characterization_witness :
    deny_condition_reached ⟨100, 100, 10⟩
      ⟨[(1, ⟨7, 1, 0, 0, false, false, false⟩)], [],
        [(2, ⟨3, 1, 0, 0, false, false, false⟩)],
        ∅, ∅, none, [], 0, false, false, 100⟩ = true :=
  (deny_condition_characterization ⟨100, 100, 10⟩ _).2.1 (by decide)

namespace Tracker

@[simp] theorem fee_update_self (t : Tracker) (a v c : Nat) :
    ((t.update a v c).get a).fee = v := by
  unfold update
  rw [get_modify]
  simp

end Tracker

/-- C9: an `Ok` RAV response that carries no signed RAV
(`RavRequestResponse(Ok((fees, None)))`) overwrites the pending-RAV tracker
entry of the allocation with zero, erasing any previously tracked pending
RAV value. -/
theorem rav_response_none_zeroes_pending (cfg : Config) (s : State) (a : Nat)
    (fees : UnaggregatedReceipts) :
    ((handle cfg s
        (.UpdateReceiptFees a (.RavRequestResponse (.ok (fees, none))))).1.rav_tracker.get
          a).fee = 0 := by
  have hfrA := allowOrRearm_frame cfg
    (triggerStep cfg (eagerDeny cfg (applyReceiptFees (abortScheduled s) a
      (.RavRequestResponse (.ok (fees, none))))) a).1 a
  obtain ⟨t, ht, _, _⟩ := triggerStep_characterization cfg
    (eagerDeny cfg (applyReceiptFees (abortScheduled s) a
      (.RavRequestResponse (.ok (fees, none))))) a
  show ((allowOrRearm cfg (triggerStep cfg (eagerDeny cfg (applyReceiptFees
      (abortScheduled s) a (.RavRequestResponse (.ok (fees, none))))) a).1 a).rav_tracker.get
        a).fee = 0
  rw [hfrA.2.1, ht]
  rw [show ({ eagerDeny cfg (applyReceiptFees (abortScheduled s) a
      (.RavRequestResponse (.ok (fees, none)))) with sender_fee_tracker := t } : State).rav_tracker
    = (eagerDeny cfg (applyReceiptFees (abortScheduled s) a
      (.RavRequestResponse (.ok (fees, none))))).rav_tracker from rfl, eagerDeny_rav_tracker]
  show ((((abortScheduled s).rav_tracker.ok_rav_request a).update a
      ((Option.map SignedRAV.valueAggregate none).getD 0) 0).get a).fee = 0
  rw [Tracker.fee_update_self]
  rfl

/-- C8: handling `UpdateReceiptFees(a, RavRequestResponse(Err(e)))` leaves
the sender fee tracker's per-allocation fee value and receipt counter
unchanged for every allocation — unaggregated fees are never lost on a
failed RAV request — while the dispatch step clears the allocation's
rav-in-flight flag and records a backoff. -/
theorem failed_rav_response_preserves_fees (cfg : Config) (s : State) (a : Nat)
    (e : String) (b : Nat) :
    ((handle cfg s
        (.UpdateReceiptFees a (.RavRequestResponse (.error e)))).1.sender_fee_tracker.get
          b).fee = (s.sender_fee_tracker.get b).fee ∧
    ((handle cfg s
        (.UpdateReceiptFees a (.RavRequestResponse (.error e)))).1.sender_fee_tracker.get
          b).counter = (s.sender_fee_tracker.get b).counter ∧
    ((applyReceiptFees (abortScheduled s) a
        (.RavRequestResponse (.error e))).sender_fee_tracker.get a).ravInFlight = false ∧
    ((applyReceiptFees (abortScheduled s) a
        (.RavRequestResponse (.error e))).rav_tracker.get a).backingOff = true := by
  have hfrA := allowOrRearm_frame cfg
    (triggerStep cfg (eagerDeny cfg (applyReceiptFees (abortScheduled s) a
      (.RavRequestResponse (.error e)))) a).1 a
  obtain ⟨t, ht, _, hpt⟩ := triggerStep_characterization cfg
    (eagerDeny cfg (applyReceiptFees (abortScheduled s) a
      (.RavRequestResponse (.error e)))) a
  refine ⟨?_, ?_, ?_, ?_⟩
  · show ((allowOrRearm cfg (triggerStep cfg (eagerDeny cfg (applyReceiptFees
        (abortScheduled s) a (.RavRequestResponse (.error e)))) a).1 a).sender_fee_tracker.get
          b).fee = (s.sender_fee_tracker.get b).fee
    rw [hfrA.1, ht]
    rw [show ({ eagerDeny cfg (applyReceiptFees (abortScheduled s) a
        (.RavRequestResponse (.error e))) with sender_fee_tracker := t } : State).sender_fee_tracker
      = t from rfl]
    rw [(hpt b).1, eagerDeny_sender_fee_tracker]
    show ((((abortScheduled s).sender_fee_tracker.finish_rav_request a).get b).fee)
      = (s.sender_fee_tracker.get b).fee
    rw [Tracker.fee_finish_rav_request, abortScheduled_sender_fee_tracker]
  · show ((allowOrRearm cfg (triggerStep cfg (eagerDeny cfg (applyReceiptFees
        (abortScheduled s) a (.RavRequestResponse (.error e)))) a).1 a).sender_fee_tracker.get
          b).counter = (s.sender_fee_tracker.get b).counter
    rw [hfrA.1, ht]
    rw [show ({ eagerDeny cfg (applyReceiptFees (abortScheduled s) a
        (.RavRequestResponse (.error e))) with sender_fee_tracker := t } : State).sender_fee_tracker
      = t from rfl]
    rw [(hpt b).2, eagerDeny_sender_fee_tracker]
    show ((((abortScheduled s).sender_fee_tracker.finish_rav_request a).get b).counter)
      = (s.sender_fee_tracker.get b).counter
    rw [Tracker.counter_finish_rav_request, abortScheduled_sender_fee_tracker]
  · show ((((abortScheduled s).sender_fee_tracker.finish_rav_request a).get a).ravInFlight)
      = false
    unfold Tracker.finish_rav_request
    rw [Tracker.get_modify]
    simp
  · show ((((abortScheduled s).rav_tracker.failed_rav_backoff a).get a).backingOff) = true
    unfold Tracker.failed_rav_backoff
    rw [Tracker.get_modify]
    simp

/-- C6: on an orderly child-terminated supervision event whose registry
name parses to allocation `a`, the supervisor unblocks `a` in the sender
fee tracker, sees the dead child leave the registry, and casts itself
`UpdateReceiptFees(a, UpdateValue(UnaggregatedReceipts::default()))`; the
pending-RAV tracker — entry of `a` included — and every other state field
are left unchanged. -/
theorem actor_terminated_frame (parseAddr : String → Option Nat) (s : State)
    (name : Option (List String)) (a : Nat)
    (h : extractAllocationId parseAddr name = some a) :
    handleSupervisorEvt parseAddr s (.ActorTerminated name)
      = ({ s with
            sender_fee_tracker := s.sender_fee_tracker.unblock_allocation_id a,
            children := s.children.erase a },
         [.castSelf (.UpdateReceiptFees a (.UpdateValue UnaggregatedReceipts.zero))]) ∧
    (handleSupervisorEvt parseAddr s (.ActorTerminated name)).1.rav_tracker
      = s.rav_tracker := by
  constructor
  · simp [handleSupervisorEvt, h]
  · simp [handleSupervisorEvt, h]

/-- C6 witness: a concrete terminated child named `test:90:7`. -/
theorem actor_terminated_frame_witness :
    extractAllocationId (fun _ => some 7) (some ["test", "90", "7"]) = some 7 ∧
    (handleSupervisorEvt (fun _ => some 7) (initState ∅ false 0)
        (.ActorTerminated (some ["test", "90", "7"]))).1.rav_tracker
      = (initState ∅ false 0).rav_tracker :=
  ⟨rfl,
   (actor_terminated_frame (fun _ => some 7) (initState ∅ false 0)
      (some ["test", "90", "7"]) 7 rfl).2⟩

/-- C2 evidence, evaluated on the failing input: handling
`UpdateReceiptFees(1, RavRequestResponse(Err))` clears allocation 1's
rav-in-flight flag on the sender fee tracker, but the backoff is recorded
on the pending-RAV tracker (`state.rav_tracker.failed_rav_backoff`, source
line 611) and the sender fee tracker's backoff stays clear, so allocation 1
is still returned by heaviest-allocation selection immediately after the
failure instead of being excluded until a backoff deadline. -/
theorem failed_rav_backoff_lands_on_rav_tracker :
    ((handle ⟨1000000, 100, 1000000⟩
        ⟨[(1, ⟨300, 3, 0, 0, false, true, false⟩)], [], [], {1}, {1}, none, [], 0,
          false, false, 1000000⟩
        (.UpdateReceiptFees 1
          (.RavRequestResponse (.error "rav request timed out")))).1.sender_fee_tracker.get
            1).ravInFlight = false
      ∧ ((handle ⟨1000000, 100, 1000000⟩
        ⟨[(1, ⟨300, 3, 0, 0, false, true, false⟩)], [], [], {1}, {1}, none, [], 0,
          false, false, 1000000⟩
        (.UpdateReceiptFees 1
          (.RavRequestResponse (.error "rav request timed out")))).1.sender_fee_tracker.get
            1).backingOff = false
      ∧ ((handle ⟨1000000, 100, 1000000⟩
        ⟨[(1, ⟨300, 3, 0, 0, false, true, false⟩)], [], [], {1}, {1}, none, [], 0,
          false, false, 1000000⟩
        (.UpdateReceiptFees 1
          (.RavRequestResponse (.error "rav request timed out")))).1.rav_tracker.get
            1).backingOff = true
      ∧ (handle ⟨1000000, 100, 1000000⟩
        ⟨[(1, ⟨300, 3, 0, 0, false, true, false⟩)], [], [], {1}, {1}, none, [], 0,
          false, false, 1000000⟩
        (.UpdateReceiptFees 1
          (.RavRequestResponse
            (.error "rav request timed out")))).1.sender_fee_tracker.get_heaviest_allocation_id
        = some 1 := by
  decide

/-- C4: the trigger decision evaluated by every `UpdateReceiptFees(alloc, _)`
handler on the post-dispatch tracker: when the receipt-limit trigger holds
(count outside the buffer at least `rav_request_receipt_limit` and no RAV in
flight for the allocation) a RAV is requested for this allocation — even
when the value trigger holds as well, so the receipt-limit trigger takes
precedence; otherwise when the value trigger holds the heaviest allocation
is targeted; a missing allocation actor or failed heaviest resolution only
drops the request (logged), the handler continues.  The last conjunct ties
the decision into `handle` for every `UpdateReceiptFees` message. -/
theorem trigger_decision_policy (cfg : Config) (s : State) (a : Nat) :
    (s.sender_fee_tracker.get_total_counter_outside_buffer_for_allocation a
        ≥ cfg.rav_request_receipt_limit →
     s.sender_fee_tracker.check_allocation_has_rav_request_running a = false →
     a ∈ s.children →
      (triggerStep cfg s a).2 = [.triggerRavRequest a]) ∧
    (s.sender_fee_tracker.get_total_counter_outside_buffer_for_allocation a
        ≥ cfg.rav_request_receipt_limit →
     s.sender_fee_tracker.check_allocation_has_rav_request_running a = false →
     a ∉ s.children →
      triggerStep cfg s a = (s, [])) ∧
    (¬ (s.sender_fee_tracker.get_total_counter_outside_buffer_for_allocation a
          ≥ cfg.rav_request_receipt_limit
        ∧ s.sender_fee_tracker.check_allocation_has_rav_request_running a = false) →
     s.sender_fee_tracker.get_total_fee_outside_buffer ≥ cfg.rav_request_trigger_value →
      (triggerStep cfg s a).2
        = match s.sender_fee_tracker.get_heaviest_allocation_id with
          | some b => if b ∈ s.children then [.triggerRavRequest b] else []
          | none => []) ∧
    (¬ (s.sender_fee_tracker.get_total_counter_outside_buffer_for_allocation a
          ≥ cfg.rav_request_receipt_limit
        ∧ s.sender_fee_tracker.check_allocation_has_rav_request_running a = false) →
     ¬ s.sender_fee_tracker.get_total_fee_outside_buffer ≥ cfg.rav_request_trigger_value →
      triggerStep cfg s a = (s, [])) ∧
    ∀ rf, (handle cfg s (.UpdateReceiptFees a rf)).2
      = (triggerStep cfg (eagerDeny cfg (applyReceiptFees (abortScheduled s) a rf)) a).2 := by
  refine ⟨?_, ?_, ?_, ?_, fun rf => rfl⟩
  · intro h1 h2 h3
    have hb : (decide (s.sender_fee_tracker.get_total_counter_outside_buffer_for_allocation a
          ≥ cfg.rav_request_receipt_limit)
        && !s.sender_fee_tracker.check_allocation_has_rav_request_running a) = true := by
      simp [h1, h2]
    unfold triggerStep
    simp only [hb]
    simp [ravRequestForAllocation, h3]
  · intro h1 h2 h3
    have hb : (decide (s.sender_fee_tracker.get_total_counter_outside_buffer_for_allocation a
          ≥ cfg.rav_request_receipt_limit)
        && !s.sender_fee_tracker.check_allocation_has_rav_request_running a) = true := by
      simp [h1, h2]
    unfold triggerStep
    simp only [hb]
    simp [ravRequestForAllocation, h3]
  · intro h1 h2
    have hb : (decide (s.sender_fee_tracker.get_total_counter_outside_buffer_for_allocation a
          ≥ cfg.rav_request_receipt_limit)
        && !s.sender_fee_tracker.check_allocation_has_rav_request_running a) = false := by
      cases hc : s.sender_fee_tracker.check_allocation_has_rav_request_running a
      · have hna : ¬ s.sender_fee_tracker.get_total_counter_outside_buffer_for_allocation a
            ≥ cfg.rav_request_receipt_limit := fun hA => h1 ⟨hA, hc⟩
        simp [hna]
      · simp [hc]
    have hv : decide (s.sender_fee_tracker.get_total_fee_outside_buffer
        ≥ cfg.rav_request_trigger_value) = true := decide_eq_true h2
    unfold triggerStep
    simp only [hb, hv]
    unfold ravRequestForHeaviest
    cases hh : s.sender_fee_tracker.get_heaviest_allocation_id with
    | none => rfl
    | some b =>
        by_cases hcb : b ∈ s.children <;>
          simp [ravRequestForAllocation, hcb]
  · intro h1 h2
    have hb : (decide (s.sender_fee_tracker.get_total_counter_outside_buffer_for_allocation a
          ≥ cfg.rav_request_receipt_limit)
        && !s.sender_fee_tracker.check_allocation_has_rav_request_running a) = false := by
      cases hc : s.sender_fee_tracker.check_allocation_has_rav_request_running a
      · have hna : ¬ s.sender_fee_tracker.get_total_counter_outside_buffer_for_allocation a
            ≥ cfg.rav_request_receipt_limit := fun hA => h1 ⟨hA, hc⟩
        simp [hna]
      · simp [hc]
    have hv : decide (s.sender_fee_tracker.get_total_fee_outside_buffer
        ≥ cfg.rav_request_trigger_value) = false := by
      simp [h2]
    unfold triggerStep
    simp only [hb, hv]

/-- C4 witness: receipt limit 2, five receipts outside the buffer on
allocation 1, no RAV in flight, the child actor alive: the receipt-limit
trigger fires for allocation 1 itself. -/
theorem trigger_decision_policy_witness :
    (((⟨[(1, ⟨10, 5, 0, 0, false, false, false⟩)], [], [], {1}, {1}, none, [], 0,
        false, false, 1000⟩ : State)).sender_fee_tracker.get_total_counter_outside_buffer_for_allocation
          1 ≥ 2) ∧
    (triggerStep ⟨1000, 2, 1000⟩
        ⟨[(1, ⟨10, 5, 0, 0, false, false, false⟩)], [], [], {1}, {1}, none, [], 0,
          false, false, 1000⟩ 1).2 = [.triggerRavRequest 1] :=
  ⟨by decide,
   (trigger_decision_policy ⟨1000, 2, 1000⟩
      ⟨[(1, ⟨10, 5, 0, 0, false, false, false⟩)], [], [], {1}, {1}, none, [], 0,
        false, false, 1000⟩ 1).1 (by decide) (by decide) (by decide)⟩

/-- C7: `NewAllocationId(id)` is idempotent: handling it a second time
leaves the whole supervisor state — `allocation_ids`, the trackers and the
registry of spawned children — exactly as after the first handling, and the
second handling spawns nothing (its effect list is empty, the duplicate
registry name makes the spawn fail with only a logged error). -/
theorem new_allocation_id_idempotent (cfg : Config) (s : State) (a : Nat) :
    (handle cfg (handle cfg s (.NewAllocationId a)).1 (.NewAllocationId a)).1
      = (handle cfg s (.NewAllocationId a)).1 ∧
    (handle cfg (handle cfg s (.NewAllocationId a)).1 (.NewAllocationId a)).2 = [] := by
  by_cases hmem : a ∈ s.children
  · constructor <;>
      simp [handle, createSenderAllocation, hmem, Finset.insert_idem]
  · constructor <;>
      simp [handle, createSenderAllocation, hmem, Finset.insert_idem]

theorem modify_sigers_fold_keys {A S : Type} (mk : Nat → A → Nat → Option S) (dm : Nat)
    (allocFull : List (Nat × A)) (l : List (Nat × A)) :
    ∀ (acc : List (Nat × S)),
      (∀ k, k ∈ acc.map Prod.fst → k ∈ allocFull.map Prod.fst) →
      (∀ q ∈ l, q.1 ∈ allocFull.map Prod.fst) →
      ∀ k, k ∈ (l.foldl (fun acc q =>
          if (acc.lookup q.1).isSome then acc
          else
            match mk q.1 q.2 dm with
            | some sg => acc ++ [(q.1, sg)]
            | none => acc) acc).map Prod.fst →
        k ∈ allocFull.map Prod.fst := by
  induction l with
  | nil =>
      intro acc hacc _ k hk
      exact hacc k hk
  | cons q l ih =>
      intro acc hacc hl k hk
      simp only [List.foldl_cons] at hk
      refine ih _ ?_ (fun p hp => hl p (List.mem_cons_of_mem _ hp)) k hk
      intro k2 hk2
      by_cases hlook : (acc.lookup q.1).isSome
      · rw [if_pos hlook] at hk2
        exact hacc k2 hk2
      · rw [if_neg hlook] at hk2
        cases hmk : mk q.1 q.2 dm with
        | none =>
            rw [hmk] at hk2
            exact hacc k2 hk2
        | some sg =>
            rw [hmk] at hk2
            simp only [List.map_append, List.mem_append] at hk2
            rcases hk2 with h | h
            · exact hacc k2 h
            · simp only [List.map_cons, List.map_nil, List.mem_singleton] at h
              rw [h]
              exact hl q (List.mem_cons_self q l)

/-- C10: when the dispute-manager channel holds `None`, `modify_sigers`
returns the stored signer map unchanged — no signer is added or removed
even if the allocation set changed; when it holds an address, every key of
the returned signer map is a key of the current allocation map (stale
signers are retained out, new signers are created only for allocation
keys). -/
theorem modify_sigers_keys {A S : Type} (mkSigner : Nat → A → Nat → Option S)
    (signers : List (Nat × S)) (allocations : List (Nat × A)) :
    modify_sigers mkSigner signers allocations none = signers ∧
    ∀ dm k,
      k ∈ (modify_sigers mkSigner signers allocations (some dm)).map Prod.fst →
      k ∈ allocations.map Prod.fst := by
  refine ⟨rfl, ?_⟩
  intro dm k hk
  unfold modify_sigers at hk
  refine modify_sigers_fold_keys mkSigner dm allocations allocations _ ?_
    (fun q hq => List.mem_map.mpr ⟨q, hq, rfl⟩) k hk
  intro k2 hk2
  simp only [List.mem_map] at hk2
  obtain ⟨pr, hpr, hpre⟩ := hk2
  rw [List.mem_filter] at hpr
  obtain ⟨hmem, hpred⟩ := hpr
  simp only [List.any_eq_true, beq_iff_eq] at hpred
  obtain ⟨q, hq, hqe⟩ := hpred
  exact List.mem_map.mpr ⟨q, hq, by rw [hqe, hpre]⟩

/-- Timer bookkeeping invariant: at most one live retry timer, every live
timer is the handle stored in `scheduled_rav_request`, and every stored
handle id is below the freshness counter. -/
def TimerInv (s : State) : Prop :=
  s.liveTimers.length ≤ 1 ∧
  (∀ p ∈ s.liveTimers, s.scheduled_rav_request = some p.1) ∧
  ∀ h, s.scheduled_rav_request = some h → h < s.nextTimer

theorem timerInv_congr {s s' : State} (h1 : s'.liveTimers = s.liveTimers)
    (h2 : s'.scheduled_rav_request = s.scheduled_rav_request)
    (h3 : s'.nextTimer = s.nextTimer) (hi : TimerInv s) : TimerInv s' := by
  obtain ⟨a, b, c⟩ := hi
  refine ⟨by rw [h1]; exact a, ?_, ?_⟩
  · intro p hp
    rw [h2]
    exact b p (by rw [h1] at hp; exact hp)
  · intro h hh
    rw [h3]
    exact c h (by rw [h2] at hh; exact hh)

theorem abortScheduled_liveTimers_nil (s : State) (hi : TimerInv s) :
    (abortScheduled s).liveTimers = [] := by
  obtain ⟨h1, h2, h3⟩ := hi
  unfold abortScheduled
  cases hs : s.scheduled_rav_request with
  | none =>
      cases ht : s.liveTimers with
      | nil => rfl
      | cons p l =>
          have := h2 p (by rw [ht]; exact List.mem_cons_self p l)
          rw [hs] at this
          cases this
  | some h =>
      simp only [List.filter_eq_nil_iff]
      intro p hp
      have := h2 p hp
      rw [hs] at this
      have hph : p.1 = h := by
        injection this.symm
      simp [hph]

theorem reconcileDeny_timer_frame (cfg : Config) (s : State) :
    (reconcileDeny cfg s).liveTimers = s.liveTimers ∧
    (reconcileDeny cfg s).scheduled_rav_request = s.scheduled_rav_request ∧
    (reconcileDeny cfg s).nextTimer = s.nextTimer := by
  unfold reconcileDeny remove_from_denylist add_to_denylist
  cases hd : s.denied <;> cases hc : deny_condition_reached cfg s <;> simp [hd, hc]

theorem handle_timer_frame (cfg : Config) (s : State) (m : SenderAccountMessage)
    (hm : ∀ a rf, m ≠ .UpdateReceiptFees a rf) :
    (handle cfg s m).1.liveTimers = s.liveTimers ∧
    (handle cfg s m).1.scheduled_rav_request = s.scheduled_rav_request ∧
    (handle cfg s m).1.nextTimer = s.nextTimer := by
  cases m with
  | UpdateReceiptFees a rf => exact absurd rfl (hm a rf)
  | UpdateRav rav =>
      refine ⟨?_, ?_, ?_⟩ <;> simp [handle]
  | UpdateInvalidReceiptFees a u =>
      refine ⟨?_, ?_, ?_⟩ <;> simp [handle]
  | NewAllocationId aid =>
      have hsh : (handle cfg s (.NewAllocationId aid)).1
          = { (createSenderAllocation s aid).1 with
              allocation_ids := insert aid (createSenderAllocation s aid).1.allocation_ids } :=
        rfl
      rw [hsh]
      rcases createSenderAllocation_state_cases s aid with h | h <;> rw [h] <;>
        exact ⟨rfl, rfl, rfl⟩
  | UpdateAllocationIds ids =>
      obtain ⟨c, t, hst, _⟩ := handleUAI_state cfg s ids
      rw [hst]
      exact ⟨rfl, rfl, rfl⟩
  | UpdateBalanceAndLastRavs b ravs =>
      have hfr := reconcileDeny_timer_frame cfg
        { s with
            sender_balance := b,
            rav_tracker :=
              ravs.foldl (fun t p => t.update p.1 p.2 0)
                ((((s.rav_tracker.get_list_of_allocation_ids \
                    (s.allocation_ids ∪ (ravs.map Prod.fst).toFinset)).sort
                      (· ≤ ·)).foldl (fun t a => t.update a 0 0) s.rav_tracker)) }
      exact hfr

theorem handleSupervisorEvt_timer_frame (parseAddr : String → Option Nat) (s : State)
    (ev : SupervisionEvent) :
    (handleSupervisorEvt parseAddr s ev).1.liveTimers = s.liveTimers ∧
    (handleSupervisorEvt parseAddr s ev).1.scheduled_rav_request
      = s.scheduled_rav_request ∧
    (handleSupervisorEvt parseAddr s ev).1.nextTimer = s.nextTimer := by
  cases ev with
  | ActorTerminated name =>
      cases hx : extractAllocationId parseAddr name <;>
        simp [handleSupervisorEvt, hx]
  | ActorPanicked name =>
      cases hx : extractAllocationId parseAddr name with
      | none => simp [handleSupervisorEvt, hx]
      | some aid =>
          simp only [handleSupervisorEvt, hx]
          rcases createSenderAllocation_state_cases
              { s with children := s.children.erase aid } aid with h | h <;>
            rw [h] <;> exact ⟨rfl, rfl, rfl⟩

theorem deny_condition_rearm (cfg : Config) (s : State) (a : Nat) :
    deny_condition_reached cfg
      { s with scheduled_rav_request := some s.nextTimer,
               liveTimers :=
                 (s.nextTimer, SenderAccountMessage.UpdateReceiptFees a .Retry)
                   :: s.liveTimers,
               nextTimer := s.nextTimer + 1 }
      = deny_condition_reached cfg s := rfl

theorem handleURF_timer_state (cfg : Config) (s : State) (a : Nat) (rf : ReceiptFees)
    (hi : TimerInv s) :
    TimerInv (handleUpdateReceiptFees cfg s a rf).1 ∧
    (∀ p ∈ (handleUpdateReceiptFees cfg s a rf).1.liveTimers,
      p.2 = SenderAccountMessage.UpdateReceiptFees a .Retry ∧
      (handleUpdateReceiptFees cfg s a rf).1.scheduled_rav_request = some p.1 ∧
      s.nextTimer ≤ p.1) ∧
    ((handleUpdateReceiptFees cfg s a rf).1.scheduled_rav_request.isSome = true →
      (handleUpdateReceiptFees cfg s a rf).1.denied = true ∧
      deny_condition_reached cfg (handleUpdateReceiptFees cfg s a rf).1 = true) := by
  have hfr := applyReceiptFees_frame (abortScheduled s) a rf
  have hshow : (handleUpdateReceiptFees cfg s a rf).1
      = allowOrRearm cfg
          (triggerStep cfg (eagerDeny cfg (applyReceiptFees (abortScheduled s) a rf)) a).1
          a := rfl
  obtain ⟨t, ht, htot, _⟩ := triggerStep_characterization cfg
    (eagerDeny cfg (applyReceiptFees (abortScheduled s) a rf)) a
  set mid :=
    (triggerStep cfg (eagerDeny cfg (applyReceiptFees (abortScheduled s) a rf)) a).1
    with hmidDef
  have hmidT : mid.liveTimers = [] := by
    rw [ht]
    show (eagerDeny cfg (applyReceiptFees (abortScheduled s) a rf)).liveTimers = []
    rw [eagerDeny_liveTimers, hfr.2.2.1]
    exact abortScheduled_liveTimers_nil s hi
  have hmidS : mid.scheduled_rav_request = none := by
    rw [ht]
    show (eagerDeny cfg
        (applyReceiptFees (abortScheduled s) a rf)).scheduled_rav_request = none
    rw [eagerDeny_scheduled, hfr.2.1, abortScheduled_scheduled]
  have hmidN : mid.nextTimer = s.nextTimer := by
    rw [ht]
    show (eagerDeny cfg (applyReceiptFees (abortScheduled s) a rf)).nextTimer = s.nextTimer
    rw [eagerDeny_nextTimer, hfr.2.2.2.1, abortScheduled_nextTimer]
  rw [hshow]
  rcases allowOrRearm_cases cfg mid a with ⟨hd, hc, heq⟩ | ⟨hd, hc, heq⟩ | ⟨hd, heq⟩ <;>
    rw [heq]
  · refine ⟨⟨?_, ?_, ?_⟩, ?_, ?_⟩
    · show mid.liveTimers.length ≤ 1
      rw [hmidT]
      simp
    · intro p hp
      rw [show (remove_from_denylist mid).liveTimers = mid.liveTimers from rfl, hmidT] at hp
      cases hp
    · intro h hh
      rw [show (remove_from_denylist mid).scheduled_rav_request
        = mid.scheduled_rav_request from rfl, hmidS] at hh
      cases hh
    · intro p hp
      rw [show (remove_from_denylist mid).liveTimers = mid.liveTimers from rfl, hmidT] at hp
      cases hp
    · intro hsome
      rw [show (remove_from_denylist mid).scheduled_rav_request
        = mid.scheduled_rav_request from rfl, hmidS] at hsome
      simp at hsome
  · refine ⟨⟨?_, ?_, ?_⟩, ?_, ?_⟩
    · dsimp only
      rw [hmidT]
      simp
    · intro p hp
      dsimp only at hp ⊢
      rw [hmidT] at hp
      rw [List.mem_singleton] at hp
      subst hp
      rfl
    · intro h hh
      dsimp only at hh ⊢
      injection hh with h2
      omega
    · intro p hp
      dsimp only at hp ⊢
      rw [hmidT] at hp
      rw [List.mem_singleton] at hp
      subst hp
      exact ⟨rfl, rfl, le_of_eq hmidN.symm⟩
    · intro _
      refine ⟨hd, ?_⟩
      rw [deny_condition_rearm cfg mid a, hc]
  · refine ⟨⟨?_, ?_, ?_⟩, ?_, ?_⟩
    · rw [hmidT]
      simp
    · intro p hp
      rw [hmidT] at hp
      cases hp
    · intro h hh
      rw [hmidS] at hh
      cases hh
    · intro p hp
      rw [hmidT] at hp
      cases hp
    · intro hsome
      rw [hmidS] at hsome
      simp at hsome

theorem timerInv_of_reachable (cfg : Config) (parseAddr : String → Option Nat)
    (s : State) (h : Reachable cfg parseAddr s) : TimerInv s := by
  induction h with
  | init ids d b =>
      exact ⟨by simp [initState], by simp [initState], by simp [initState]⟩
  | msg s2 m hr ih =>
      by_cases hurf : ∃ a rf, m = .UpdateReceiptFees a rf
      · obtain ⟨a, rf, rfl⟩ := hurf
        exact (handleURF_timer_state cfg s2 a rf ih).1
      · have hfr := handle_timer_frame cfg s2 m (fun a rf hh => hurf ⟨a, rf, hh⟩)
        exact timerInv_congr hfr.1 hfr.2.1 hfr.2.2 ih
  | supervision s2 ev hr ih =>
      have hfr := handleSupervisorEvt_timer_frame parseAddr s2 ev
      exact timerInv_congr hfr.1 hfr.2.1 hfr.2.2 ih
  | fire s2 h2 hr ih =>
      obtain ⟨a, b, c⟩ := ih
      refine ⟨?_, ?_, ?_⟩
      · exact le_trans (List.length_filter_le _ _) a
      · intro p hp
        exact b p (List.mem_of_mem_filter hp)
      · exact c

/-- C5: on every reachable state at most one scheduled retry timer is
live; after any `UpdateReceiptFees` handler — which first takes and aborts
the pending handle — at most one timer is live, every live timer is a fresh
handle (never one that was live before the handler), carries the payload
`UpdateReceiptFees(alloc, Retry)` and is the handle stored in
`scheduled_rav_request`; and a handle is stored after the handler only when
the post-state is still `(denied, deny_condition_reached()) = (true, true)`. -/
theorem scheduled_retry_cardinality (cfg : Config) (parseAddr : String → Option Nat)
    (s : State) (hr : Reachable cfg parseAddr s) :
    s.liveTimers.length ≤ 1 ∧
    ∀ a rf,
      (handle cfg s (.UpdateReceiptFees a rf)).1.liveTimers.length ≤ 1 ∧
      (∀ p ∈ (handle cfg s (.UpdateReceiptFees a rf)).1.liveTimers,
        p.2 = SenderAccountMessage.UpdateReceiptFees a .Retry ∧
        (handle cfg s (.UpdateReceiptFees a rf)).1.scheduled_rav_request = some p.1 ∧
        p ∉ s.liveTimers) ∧
      ((handle cfg s (.UpdateReceiptFees a rf)).1.scheduled_rav_request.isSome = true →
        (handle cfg s (.UpdateReceiptFees a rf)).1.denied = true ∧
        deny_condition_reached cfg (handle cfg s (.UpdateReceiptFees a rf)).1 = true) := by
  have hi := timerInv_of_reachable cfg parseAddr s hr
  refine ⟨hi.1, ?_⟩
  intro a rf
  have hh := handleURF_timer_state cfg s a rf hi
  refine ⟨hh.1.1, ?_, hh.2.2⟩
  intro p hp
  have h2 := hh.2.1 p hp
  refine ⟨h2.1, h2.2.1, ?_⟩
  intro hmem
  have h3 := hi.2.1 p hmem
  have h4 := hi.2.2 p.1 h3
  have h5 := h2.2.2
  omega

/-- C5 witness: the startup state is reachable and carries no live timer. -/
theorem scheduled_retry_cardinality_witness :
    (initState ∅ false 0).liveTimers.length ≤ 1 :=
  (scheduled_retry_cardinality ⟨1, 1, 1⟩ (fun _ => none) (initState ∅ false 0)
    (Reachable.init ∅ false 0)).1

/-- C10 witness: a stale signer for allocation 3 is dropped, a signer for
the live allocation 1 is created, and its key is an allocation key. -/
theorem modify_sigers_keys_witness :
    1 ∈ (modify_sigers (fun i _ _ => some i) [(3, 0)] [(1, 0)] (some 5)).map Prod.fst ∧
    1 ∈ ([(1, 0)] : List (Nat × Nat)).map Prod.fst :=
  ⟨by decide,
   (modify_sigers_keys (fun i _ _ => some i) [(3, 0)] [(1, 0)]).2 5 1 (by decide)⟩

end IndexerRs
